import Mathlib

/-
Verification of the chitra model-serving layer (src/chitra/serve/model_server.py)
as a shallow embedding in Lean 4.

Modelling conventions:
  * Python values flowing through a handler pipeline are drawn from an arbitrary
    type `a` (Python is untyped; the pipeline threads a single value).
  * Keyword-argument dictionaries (`**kwargs`) are drawn from an arbitrary type
    `k`; `functools.partial(f, **kwargs)` on a default-processor function is
    modelled by currying: an unbound default function takes the kwargs first,
    and binding produces the one-argument function `f kw`.
  * A Python value that may be `None` is an `Option`; a call that raises is an
    `Except` (when the exception value matters) or an `Option` (when only the
    distinction raised / returned matters).
  * FastAPI route registration (`app.post(path)(handler)`) is modelled as
    appending a `Route` record to the application's route list; starting the
    uvicorn server is modelled as a boolean flag on the factory result.
-/

namespace Chitra

/-- Python `str.upper` on a single character, restricted to the ASCII range
(the only characters the task tags use). -/
def upperChar (c : Char) : Char :=
  if 97 ≤ c.toNat ∧ c.toNat ≤ 122 then Char.ofNat (c.toNat - 32) else c

/-- Python `str.upper`: uppercase every character of the string. -/
def pyUpper (s : String) : String := ⟨s.data.map upperChar⟩

def IMAGE_CLF : String := "IMAGE-CLASSIFICATION"

def OBJECT_DETECTION : String := "OBJECT-DETECTION"

def TXT_CLF : String := "TEXT-CLASSIFICATION"

def QNA : String := "QUESTION-ANS"

/-- The `API_TYPES` dictionary: category name to tuple of task tags,
in insertion order. -/
def API_TYPES : List (String × List String) :=
  [("VISION", [IMAGE_CLF, OBJECT_DETECTION]), ("NLP", [TXT_CLF, QNA])]

/-- `API_TYPES.get(key)`: the value stored under `key` (the code only looks up
keys that are present; a missing key yields the empty list here, standing for
Python's `None`). -/
def apiTypesGet (key : String) : List String :=
  ((API_TYPES.find? (fun p => p.1 == key)).map Prod.snd).getD []

/-- `get_available_api_types()`: chain of all tag tuples of `API_TYPES`
in insertion order. -/
def get_available_api_types : List String := (API_TYPES.map Prod.snd).flatten

/-- Modelled from the spec: `DataProcessor` lives in `serve/data_processing.py`,
which is not under src/. Per the spec's data model it "holds two optional
function references (preprocess, postprocess)". The slots hold one-argument
functions: either user-supplied ones or defaults with keyword configuration
already bound in. -/
structure DataProcessor (a : Type) where
  preprocess_fn : Option (a → a)
  postprocess_fn : Option (a → a)

/-- Modelled from the spec: a pristine default processor as stored on
`DefaultProcessor` before `setup_api` binds keyword configuration into it.
Its functions still expect the keyword configuration, which
`functools.partial` later binds (modelled as currying: applying to the kwargs
value yields the bound one-argument function). -/
structure RawProcessor (a k : Type) where
  preprocess_fn : k → a → a
  postprocess_fn : k → a → a

/-- Modelled from the spec: `DefaultProcessor.nlp`, the natural-language
default processor (its source file is not under src/). The spec states that
`/api/predict-text` with no processing functions returns model(query)
unmodified by pre/post steps, so both default functions leave the data
unchanged, whatever the keyword configuration. -/
def nlpDefault (a k : Type) : RawProcessor a k :=
  ⟨fun _ x => x, fun _ x => x⟩

/-- The `UserWarning` raised by `set_default_processor`, carrying the pieces of
its message: the unrecognized tag and the available tags
(`f"{api_type} is not implemented! Available types are - {get_available_api_types()}"`). -/
inductive ServeError where
  | notImplemented (api_type : String) (available : List String)
  deriving DecidableEq, Repr

/-- The state a `ModelServer` holds after `__init__`: the uppercased task tag,
the model callable, and the optional data processor. -/
structure ModelServerState (a : Type) where
  api_type : String
  model : a → a
  data_processor : Option (DataProcessor a)

/-- `ModelServer.set_data_processor`: returns `None` when
`(preprocess_fn or postprocess_fn) is None` — with callables (truthy when not
`None`) that means both arguments are `None` — otherwise wraps the pair in a
`DataProcessor`. -/
def set_data_processor {a : Type} (preprocess_fn postprocess_fn : Option (a → a)) :
    Option (DataProcessor a) :=
  match preprocess_fn, postprocess_fn with
  | none, none => none
  | p, q => some ⟨p, q⟩

/-- `ModelServer.__init__`: store the uppercased tag, the model, and the
processor produced by `set_data_processor` (extra kwargs are ignored here). -/
def ModelServer.init {a : Type} (api_type : String) (model : a → a)
    (preprocess_fn postprocess_fn : Option (a → a)) : ModelServerState a :=
  { api_type := pyUpper api_type
    model := model
    data_processor := set_data_processor preprocess_fn postprocess_fn }

/-- `ModelServer.set_default_processor`: pick the vision default when the
stored tag is in `API_TYPES["VISION"]`, the NLP default when it is in
`API_TYPES["NLP"]`, and raise `UserWarning` otherwise. The vision default's
functions are external image codecs (their source file is not under src/), so
they are taken as a parameter `vision`. -/
def set_default_processor {a k : Type} (vision : RawProcessor a k) (api_type : String) :
    Except ServeError (RawProcessor a k) :=
  if api_type ∈ apiTypesGet "VISION" then .ok vision
  else if api_type ∈ apiTypesGet "NLP" then .ok (nlpDefault a k)
  else .error (.notImplemented api_type get_available_api_types)

/-- Which handler method a route points at. -/
inductive Handler where
  | predictImage
  | predictText
  | predictQnA
  deriving DecidableEq, Repr

/-- One registered route: HTTP method, path, handler. -/
structure Route where
  method : String
  path : String
  handler : Handler
  deriving DecidableEq, Repr

/-- The FastAPI application, reduced to its route table. -/
structure AppState where
  routes : List Route
  deriving DecidableEq, Repr

/-- The route-registration tail of `API.setup_api`: one `app.post` call for
image classification, text classification and question answering; no branch
for any other tag (in particular none for object detection). -/
def register_routes (api_type : String) (app : AppState) : AppState :=
  if api_type = IMAGE_CLF then
    ⟨app.routes ++ [⟨"POST", "/api/predict-image", .predictImage⟩]⟩
  else if api_type = TXT_CLF then
    ⟨app.routes ++ [⟨"POST", "/api/predict-text", .predictText⟩]⟩
  else if api_type = QNA then
    ⟨app.routes ++ [⟨"POST", "/api/QnA", .predictQnA⟩]⟩
  else app

/-- The state an `API` holds: the server state plus the application object. -/
structure APIState (a : Type) where
  server : ModelServerState a
  app : AppState

/-- `API.setup_api`: when no data processor is installed, resolve the category
default (which may raise) and bind the keyword configuration into both of its
functions with `functools.partial` (modelled by applying the curried raw
functions to `kwargs`); then register the route selected by the tag. -/
def setup_api {a k : Type} (vision : RawProcessor a k) (kwargs : k)
    (s : ModelServerState a) (app : AppState) : Except ServeError (APIState a) :=
  match s.data_processor with
  | none =>
    match set_default_processor vision s.api_type with
    | .error e => .error e
    | .ok raw =>
      let dp : DataProcessor a :=
        ⟨some (raw.preprocess_fn kwargs), some (raw.postprocess_fn kwargs)⟩
      .ok ⟨{ s with data_processor := some dp }, register_routes s.api_type app⟩
  | some _ => .ok ⟨s, register_routes s.api_type app⟩

/-- `API.__init__`: run the `ModelServer` constructor, create a fresh
application with no routes, and run `setup_api` on it. -/
def API.init {a k : Type} (vision : RawProcessor a k) (api_type : String)
    (model : a → a) (preprocess_fn postprocess_fn : Option (a → a)) (kwargs : k) :
    Except ServeError (APIState a) :=
  let s := ModelServer.init api_type model preprocess_fn postprocess_fn
  setup_api vision kwargs s ⟨[]⟩

/-- `API.predict_image` on the uploaded bytes: read both processor slots, then
apply preprocess, model, postprocess unconditionally in that order. `none`
stands for the `AttributeError`/`TypeError` Python would raise when the
processor or a slot is missing. -/
def predict_image {a : Type} (s : ModelServerState a) (file : a) : Option a :=
  match s.data_processor with
  | none => none
  | some dp =>
    match dp.preprocess_fn, dp.postprocess_fn with
    | some pre, some post => some (post (s.model (pre file)))
    | _, _ => none

/-- `API.predict_text` on the query: apply preprocess only if set, then the
model, then postprocess only if set. `none` stands for the `AttributeError`
Python would raise when no processor is installed at all. -/
def predict_text {a : Type} (s : ModelServerState a) (query : a) : Option a :=
  match s.data_processor with
  | none => none
  | some dp =>
    let x := query
    let x := match dp.preprocess_fn with | some f => f x | none => x
    let x := s.model x
    let x := match dp.postprocess_fn with | some g => g x | none => x
    some x

/-- The result of `create_api`: the constructed API and whether
`uvicorn.run` was invoked. -/
structure CreateResult (a : Type) where
  api : APIState a
  serverStarted : Bool

/-- `create_api`: construct the `API`; start the server exactly when `run` is
true; return the API object. -/
def create_api {a k : Type} (vision : RawProcessor a k) (model : a → a)
    (api_type : String) (preprocess postprocess : Option (a → a))
    (run : Bool) (kwargs : k) : Except ServeError (CreateResult a) :=
  match API.init vision api_type model preprocess postprocess kwargs with
  | .error e => .error e
  | .ok api => if run then .ok ⟨api, true⟩ else .ok ⟨api, false⟩

/-! ### Helper lemmas -/

theorem upperChar_idem (c : Char) : upperChar (upperChar c) = upperChar c := by
  by_cases h : 97 ≤ c.toNat ∧ c.toNat ≤ 122
  · have hc : upperChar c = Char.ofNat (c.toNat - 32) := by
      unfold upperChar; exact if_pos h
    rw [hc]
    obtain ⟨h1, h2⟩ := h
    generalize c.toNat = n at h1 h2
    interval_cases n <;> decide
  · have hc : upperChar c = c := by unfold upperChar; exact if_neg h
    rw [hc, hc]

theorem pyUpper_idem (s : String) : pyUpper (pyUpper s) = pyUpper s := by
  unfold pyUpper
  simp [List.map_map, Function.comp_def, upperChar_idem]

theorem pyUpper_IMAGE_CLF : pyUpper IMAGE_CLF = IMAGE_CLF := by decide

theorem pyUpper_OBJECT_DETECTION : pyUpper OBJECT_DETECTION = OBJECT_DETECTION := by decide

theorem pyUpper_TXT_CLF : pyUpper TXT_CLF = TXT_CLF := by decide

theorem pyUpper_QNA : pyUpper QNA = QNA := by decide

/-- A tag is among the available API types exactly when it is one of the four
declared constants. -/
theorem mem_available_iff (t : String) :
    t ∈ get_available_api_types ↔
      t = IMAGE_CLF ∨ t = OBJECT_DETECTION ∨ t = TXT_CLF ∨ t = QNA := by
  simp [get_available_api_types, API_TYPES]

/-- On a tag outside the available API types, `set_default_processor` raises
the not-implemented error. -/
theorem set_default_processor_not_available {a k : Type} (vision : RawProcessor a k)
    (t : String) (h : t ∉ get_available_api_types) :
    set_default_processor vision t =
      .error (.notImplemented t get_available_api_types) := by
  have hv : t ∉ apiTypesGet "VISION" := by
    intro hm
    exact h (by simp [apiTypesGet, get_available_api_types, API_TYPES] at hm ⊢; tauto)
  have hn : t ∉ apiTypesGet "NLP" := by
    intro hm
    exact h (by simp [apiTypesGet, get_available_api_types, API_TYPES] at hm ⊢; tauto)
  unfold set_default_processor
  rw [if_neg hv, if_neg hn]

/-- A concrete vision default processor used to instantiate witnesses. -/
def visionW : RawProcessor Nat Unit := ⟨fun _ x => x + 1, fun _ x => x + 2⟩

/-! ### Claims -/

/-- C1: for every task tag, `set_default_processor` returns the vision default
processor when the (uppercased) tag is IMAGE-CLASSIFICATION or
OBJECT-DETECTION, the NLP default processor when it is TEXT-CLASSIFICATION or
QUESTION-ANS, and for every other string raises the not-implemented error
(naming the tag and the available tags) instead of returning. -/
theorem set_default_processor_resolution {a k : Type} (vision : RawProcessor a k)
    (t : String) :
    ((t = IMAGE_CLF ∨ t = OBJECT_DETECTION) →
      set_default_processor vision t = .ok vision) ∧
    ((t = TXT_CLF ∨ t = QNA) →
      set_default_processor vision t = .ok (nlpDefault a k)) ∧
    (t ∉ get_available_api_types →
      set_default_processor vision t =
        .error (.notImplemented t get_available_api_types)) := by
  refine ⟨fun h => ?_, fun h => ?_, fun h => ?_⟩
  · rcases h with h | h <;> subst h <;> rfl
  · rcases h with h | h <;> subst h <;> rfl
  · exact set_default_processor_not_available vision t h

/-- Witness for C1 at the concrete tags OBJECT-DETECTION, QUESTION-ANS
and the unrecognized tag FOO. -/
theorem set_default_processor_resolution_witness :
    set_default_processor visionW OBJECT_DETECTION = .ok visionW ∧
    set_default_processor visionW QNA = .ok (nlpDefault Nat Unit) ∧
    set_default_processor visionW "FOO" =
      .error (.notImplemented "FOO" get_available_api_types) :=
  ⟨(set_default_processor_resolution visionW OBJECT_DETECTION).1 (Or.inr rfl),
   (set_default_processor_resolution visionW QNA).2.1 (Or.inr rfl),
   (set_default_processor_resolution visionW "FOO").2.2 (by decide)⟩

/-- C2: for every uploaded byte value, every model, and every installed
preprocess/postprocess pair, `predict_image` returns exactly
postprocess(model(preprocess(B))), applying the three functions in that order
unconditionally. -/
theorem predict_image_pipeline {a : Type} (t : String) (m f g : a → a) (B : a) :
    predict_image ⟨t, m, some ⟨some f, some g⟩⟩ B = some (g (m (f B))) := rfl

/-- C3 counterexample: constructing with the unrecognized tag FOO while
supplying both processing functions succeeds — no error is raised — refuting
that construction fails for an invalid tag regardless of whether
preprocess/postprocess functions were supplied. -/
theorem api_init_foo_with_processor_isOk :
    (API.init visionW "FOO" (fun x => x)
      (some fun x => x + 1) (some fun x => x + 2) ()).isOk = true := rfl

/-- C3 (amended): constructing an API with a task tag whose uppercasing lies
outside the four recognized constants fails, with the error naming the invalid
(uppercased) tag and listing the valid tags, exactly when no processing
function was supplied (so no data processor was installed); the error value is
returned to the caller of construction. When at least one processing function
is supplied, construction succeeds and the error path is never reached. -/
theorem api_init_unrecognized_tag {a k : Type} (vision : RawProcessor a k)
    (t : String) (m : a → a) (kw : k)
    (h : pyUpper t ∉ get_available_api_types) :
    API.init vision t m none none kw =
      .error (.notImplemented (pyUpper t) get_available_api_types) ∧
    (∀ f g : a → a, (API.init vision t m (some f) (some g) kw).isOk = true) ∧
    (∀ f : a → a, (API.init vision t m (some f) none kw).isOk = true) ∧
    (∀ g : a → a, (API.init vision t m none (some g) kw).isOk = true) := by
  refine ⟨?_, fun f g => rfl, fun f => rfl, fun g => rfl⟩
  have h1 := set_default_processor_not_available vision (pyUpper t) h
  simp [API.init, ModelServer.init, setup_api, set_data_processor, h1]

/-- Witness for C3's amended theorem at the concrete lowercase tag "foo". -/
theorem api_init_unrecognized_tag_witness :
    pyUpper "foo" ∉ get_available_api_types ∧
    API.init visionW "foo" (fun x => x) none none () =
      .error (.notImplemented (pyUpper "foo") get_available_api_types) :=
  ⟨by decide,
   (api_init_unrecognized_tag visionW "foo" (fun x => x) () (by decide)).1⟩

/-- C4: for every query value and every model, constructing the API with the
TEXT-CLASSIFICATION tag and no preprocess and no postprocess function makes
`predict_text` return model(query) with nothing else applied to the query or
to the model's result; when the caller did supply processing functions, they
are applied around the model call. -/
theorem predict_text_default_identity {a k : Type} (vision : RawProcessor a k)
    (m : a → a) (kw : k) (q : a) :
    (API.init vision TXT_CLF m none none kw).map
        (fun ap => predict_text ap.server q) = .ok (some (m q)) ∧
    (∀ f g : a → a,
      (API.init vision TXT_CLF m (some f) (some g) kw).map
          (fun ap => predict_text ap.server q) = .ok (some (g (m (f q))))) := by
  constructor
  · have hne : ¬(TXT_CLF = IMAGE_CLF ∨ TXT_CLF = OBJECT_DETECTION) := by decide
    simp [API.init, ModelServer.init, setup_api, set_data_processor,
      pyUpper_TXT_CLF, set_default_processor, apiTypesGet, API_TYPES,
      nlpDefault, predict_text, hne, Except.map]
  · intro f g; rfl

/-- C5: for every API constructed with both a preprocess and a postprocess
function supplied, default-processor resolution is never consulted (the result
does not depend on the default processors at all) and the installed data
processor is exactly the supplied pair. -/
theorem api_init_supplied_pair_skips_defaults {a k : Type}
    (vision vision' : RawProcessor a k) (t : String) (m f g : a → a) (kw : k) :
    API.init vision t m (some f) (some g) kw =
      API.init vision' t m (some f) (some g) kw ∧
    (API.init vision t m (some f) (some g) kw).map
        (fun ap => ap.server.data_processor) = .ok (some ⟨some f, some g⟩) :=
  ⟨rfl, rfl⟩

/-- C6: constructing an API with the OBJECT-DETECTION tag registers zero
routes (and `setup_api` leaves any pre-existing route table unchanged for that
tag), while each of the other three recognized tags registers exactly one POST
route at its fixed path. -/
theorem api_routes_by_tag {a k : Type} (vision : RawProcessor a k) (m : a → a)
    (p q : Option (a → a)) (kw : k) :
    (API.init vision OBJECT_DETECTION m p q kw).map (fun ap => ap.app.routes) =
      .ok [] ∧
    (∀ app : AppState,
      (setup_api vision kw (ModelServer.init OBJECT_DETECTION m p q) app).map
        (fun ap => ap.app.routes) = .ok app.routes) ∧
    (API.init vision IMAGE_CLF m p q kw).map (fun ap => ap.app.routes) =
      .ok [⟨"POST", "/api/predict-image", .predictImage⟩] ∧
    (API.init vision TXT_CLF m p q kw).map (fun ap => ap.app.routes) =
      .ok [⟨"POST", "/api/predict-text", .predictText⟩] ∧
    (API.init vision QNA m p q kw).map (fun ap => ap.app.routes) =
      .ok [⟨"POST", "/api/QnA", .predictQnA⟩] := by
  refine ⟨?_, fun app => ?_, ?_, ?_, ?_⟩ <;> cases p <;> cases q <;> rfl

/-- C7: `create_api` returns exactly the API object that construction built,
and the server is started if and only if `run` is true; with `run = false`
no server start happens. -/
theorem create_api_run_flag {a k : Type} (vision : RawProcessor a k)
    (m : a → a) (t : String) (p q : Option (a → a)) (kw : k) (run : Bool) :
    create_api vision m t p q run kw =
      (API.init vision t m p q kw).map (fun api => ⟨api, run⟩) := by
  cases hA : API.init vision t m p q kw with
  | error e => simp [create_api, hA, Except.map]
  | ok api => cases run <;> simp [create_api, hA, Except.map]

/-- C8: whenever an API is constructed with no processor supplied, the
category default processor is selected and the keyword configuration is bound
into both its preprocess and its postprocess function (modelled by applying
the curried raw functions to the kwargs), so every later call of either
installed function receives those keywords. -/
theorem setup_api_binds_kwargs {a k : Type} (vision : RawProcessor a k)
    (m : a → a) (kw : k) :
    ((API.init vision IMAGE_CLF m none none kw).map
        (fun ap => ap.server.data_processor) =
      .ok (some ⟨some (vision.preprocess_fn kw), some (vision.postprocess_fn kw)⟩)) ∧
    ((API.init vision OBJECT_DETECTION m none none kw).map
        (fun ap => ap.server.data_processor) =
      .ok (some ⟨some (vision.preprocess_fn kw), some (vision.postprocess_fn kw)⟩)) ∧
    ((API.init vision TXT_CLF m none none kw).map
        (fun ap => ap.server.data_processor) =
      .ok (some ⟨some ((nlpDefault a k).preprocess_fn kw),
                 some ((nlpDefault a k).postprocess_fn kw)⟩)) ∧
    ((API.init vision QNA m none none kw).map
        (fun ap => ap.server.data_processor) =
      .ok (some ⟨some ((nlpDefault a k).preprocess_fn kw),
                 some ((nlpDefault a k).postprocess_fn kw)⟩)) :=
  ⟨rfl, rfl, rfl, rfl⟩

/-- C9: `set_data_processor` returns no processor exactly when both arguments
are `None`; supplying exactly one of the two functions installs a processor
whose other slot is `None` with no default substituted for the missing half,
and the category-default pair is substituted exactly when both are missing. -/
theorem set_data_processor_none_iff {a k : Type} (p q : Option (a → a))
    (vision : RawProcessor a k) (m f g : a → a) (kw : k) :
    (set_data_processor p q = none ↔ p = none ∧ q = none) ∧
    ((API.init vision TXT_CLF m (some f) none kw).map
        (fun ap => ap.server.data_processor) = .ok (some ⟨some f, none⟩)) ∧
    ((API.init vision TXT_CLF m none (some g) kw).map
        (fun ap => ap.server.data_processor) = .ok (some ⟨none, some g⟩)) ∧
    ((API.init vision TXT_CLF m none none kw).map
        (fun ap => ap.server.data_processor) =
      .ok (some ⟨some ((nlpDefault a k).preprocess_fn kw),
                 some ((nlpDefault a k).postprocess_fn kw)⟩)) := by
  refine ⟨?_, rfl, rfl, rfl⟩
  cases p <;> cases q <;> simp [set_data_processor]

/-- C10: the task tag is case-insensitive at the public interface: for every
string s, constructing a `ModelServer` or an `API` with the tag s yields the
same state (stored tag, default-processor resolution, route registration) as
constructing with the uppercased s, because the constructor uppercases the tag
before any use. -/
theorem api_type_case_insensitive {a k : Type} (vision : RawProcessor a k)
    (s : String) (m : a → a) (p q : Option (a → a)) (kw : k) :
    ModelServer.init s m p q = ModelServer.init (pyUpper s) m p q ∧
    API.init vision s m p q kw = API.init vision (pyUpper s) m p q kw := by
  have h : pyUpper (pyUpper s) = pyUpper s := pyUpper_idem s
  constructor
  · unfold ModelServer.init; rw [h]
  · unfold API.init ModelServer.init; rw [h]

end Chitra
